import Mathlib

/-!
# Verification of the `UFMysqlDatabase` adapter

Shallow embedding of the two variants of `UFMysqlDatabase` (a thin adapter
over the `mysql2/promise` driver):

* the *pooled* variant (first class in the sources): holds a `Pool` created by
  `init`, or — for an instance constructed inside `transaction` — a dedicated
  connection installed by `useConnection`;
* the *single-connection* variant (second class in the sources): holds one
  `Connection` created by `init` and re-created by `reconnect` after an
  execution failure.

The driver is an external collaborator; it is embedded as an oracle
(`PDriver` / `SDriver`) whose operations either return a result or fail with a
driver error code.  Every adapter operation is a pure function from the
instance state (its `m_...` fields) and the oracle to a trace of issued driver
calls and log messages (`List Event`) together with an outcome
(`Except JsError _`).  JavaScript exceptions are `Except.error`; `undefined`
is `Option.none` / `JsValue.vUndefined`.
-/

namespace UFMysql

/-- JavaScript-style values flowing through the adapter. -/
inductive JsValue
  | vNull
  | vUndefined
  | vInt (n : Int)
  | vStr (s : String)
  | vBool (b : Bool)
  deriving DecidableEq, Repr, Inhabited

/-- A row record (`RowDataPacket`): mapping from column name to value, in
JavaScript object key order (`Object.keys` order). -/
abbrev Row := List (String × JsValue)

/-- The driver's result of one statement dispatch: an `OkPacket` (with
`insertId`, `affectedRows` and `changedRows`) or an array of rows. -/
inductive QueryResult
  | okPacket (insertId affectedRows changedRows : Int)
  | rowSet (rows : List Row)
  deriving DecidableEq, Repr

/-- Errors surfaced to callers of the adapter.

* `noConnection` — the `new Error('There is no connection to the database.')`
  thrown by the guards in `execute` and `transaction`;
* `typeError p` — a JavaScript `TypeError` raised by reading property `p` of
  `undefined`;
* `driverError code` — an error thrown by the mysql2 driver, carrying its
  driver-specific error code;
* `unknownParameter nm` — a named placeholder with no matching key in the
  parameter map (spec §4.2: "treat as an error, not a silent null"). -/
inductive JsError
  | noConnection
  | typeError (property : String)
  | driverError (code : Nat)
  | unknownParameter (nm : List Char)
  deriving DecidableEq, Repr

/-- Observable actions of one adapter call, in order of occurrence.  A driver
call is recorded when it is *issued*, whether or not it then fails. -/
inductive Event
  | logInfo (message : String)
  | logError (code : Nat) (description : String)
  | getConn
  | beginTx (conn : Nat)
  | commitTx (conn : Nat)
  | rollbackTx (conn : Nat)
  | releaseConn (conn : Nat)
  | poolExec (sql : List Char) (values : List JsValue)
  | connExec (conn : Nat) (sql : List Char) (values : List JsValue)
  | connEnd (conn : Nat)
  | connCreate (host database user password : String)
  | poolCreate (host database user password : String)
  deriving DecidableEq, Repr

/-- Characters that may make up the name of a named placeholder (`:name`). -/
def isNameChar (c : Char) : Bool := c.isAlphanum || c = '_'

/-- The names of the named placeholders occurring in a SQL text, in
left-to-right occurrence order.  A `:` followed by no name character is not a
placeholder. -/
def placeholderNames : List Char → List (List Char)
  | [] => []
  | c :: rest =>
    if c = ':' then
      match rest.takeWhile isNameChar with
      | [] => placeholderNames rest
      | nm => nm :: placeholderNames (rest.dropWhile isNameChar)
    else placeholderNames rest
termination_by l => l.length
decreasing_by
  all_goals simp
  all_goals exact Nat.lt_succ_of_le (List.dropWhile_sublist isNameChar).length_le

/-- Modelled from the spec: `UFDatabase.processSqlParameters` is inherited
from the `ts-general-lib` base class, which is not part of this repository's
sources.  Spec §4.2: "Rewrites the SQL by replacing each named placeholder
with a positional marker, appending the corresponding value to a positional
value list in encounter order.  Unresolvable names should fail with a clear
'unknown parameter' condition."  The caller-supplied callback receives each
placeholder's name and value and yields the replacement text; callback state
`σ` is threaded left to right. -/
def processSqlParameters {σ : Type} (aParameterValues : List (List Char × JsValue))
    (callback : σ → List Char → JsValue → σ × List Char) :
    List Char → σ → Except (List Char) (σ × List Char)
  | [], st => .ok (st, [])
  | c :: rest, st =>
    if c = ':' then
      match rest.takeWhile isNameChar with
      | [] =>
        match processSqlParameters aParameterValues callback rest st with
        | .error e => .error e
        | .ok (st1, out) => .ok (st1, c :: out)
      | nm =>
        match aParameterValues.lookup nm with
        | none => .error nm
        | some v =>
          match callback st nm v with
          | (st1, rep) =>
            match processSqlParameters aParameterValues callback
                (rest.dropWhile isNameChar) st1 with
            | .error e => .error e
            | .ok (st2, out) => .ok (st2, rep ++ out)
    else
      match processSqlParameters aParameterValues callback rest st with
      | .error e => .error e
      | .ok (st1, out) => .ok (st1, c :: out)
termination_by l _ => l.length
decreasing_by
  all_goals simp
  all_goals exact Nat.lt_succ_of_le (List.dropWhile_sublist isNameChar).length_le

/-- The rewrite `execute` performs before dispatch (both variants, the
`aParameterValues ? this.processSqlParameters(...) : aSql` expression): the
callback pushes each value onto the positional value list and substitutes the
positional marker `?`. -/
def rewriteForExecute (aSql : List Char)
    (aParameterValues : List (List Char × JsValue)) :
    Except (List Char) (List JsValue × List Char) :=
  processSqlParameters aParameterValues
    (fun values _ value => (values ++ [value], ['?'])) aSql []

/-- The statement and positional values handed to the driver: the rewrite is
applied only when a parameter map was supplied. -/
def prepareStatement (aSql : List Char) :
    Option (List (List Char × JsValue)) →
    Except (List Char) (List JsValue × List Char)
  | some ps => rewriteForExecute aSql ps
  | none => .ok ([], aSql)

/-- Instance state of the pooled variant: the `m_...` fields of the first
`UFMysqlDatabase` class.  Connections and pools are identified by driver
handles (`Nat`).  The defaults are the field initializers of the class, i.e.
the state of `new UFMysqlDatabase(aLog)`. -/
structure PState where
  m_connection : Option Nat := none
  m_pool : Option Nat := none
  m_host : String := ""
  m_database : String := ""
  m_user : String := ""
  m_password : String := ""
  deriving DecidableEq, Repr

/-- Oracle for the mysql2 driver calls the pooled variant issues.  Each
operation yields a result or fails with a driver error code. -/
structure PDriver where
  poolExecute : List Char → List JsValue → Except Nat QueryResult
  connExecute : Nat → List Char → List JsValue → Except Nat QueryResult
  getConnection : Except Nat Nat
  beginTransaction : Nat → Except Nat Unit
  commit : Nat → Except Nat Unit
  rollback : Nat → Except Nat Unit
  createPool : Except Nat Nat

namespace Pooled

/-- `init` (pooled): stores the configuration, then creates the pool and logs.
The config fields are assigned before `createPool`, so a failure there leaves
the pool field untouched but the config stored; the method installs no
handler, so the failure propagates. -/
def init (d : PDriver) (s : PState) (aHost aDatabase anUser aPassword : String) :
    PState × List Event × Except JsError Unit :=
  let s1 := { s with m_host := aHost, m_database := aDatabase,
                     m_user := anUser, m_password := aPassword }
  match d.createPool with
  | .error e =>
      (s1, [.poolCreate aHost aDatabase anUser aPassword], .error (.driverError e))
  | .ok p =>
      ({ s1 with m_pool := some p },
       [.poolCreate aHost aDatabase anUser aPassword, .logInfo "created pool"],
       .ok ())

/-- `useConnection`: called instead of `init` to bind a dedicated connection. -/
def useConnection (s : PState) (aConnection : Nat) : PState :=
  { s with m_connection := some aConnection }

/-- `execute` (pooled): guard against a missing pool and connection, rewrite
named parameters, dispatch via the pool when one is present and via the bound
connection otherwise.  On a driver failure the error is only logged and the
method falls off the end of the `catch`, resolving with `undefined`
(`Option.none`). -/
def execute (d : PDriver) (s : PState) (aDescription : String) (aSql : List Char)
    (aParameterValues : Option (List (List Char × JsValue))) :
    List Event × Except JsError (Option QueryResult) :=
  if s.m_connection = none ∧ s.m_pool = none then
    ([], .error .noConnection)
  else
    match prepareStatement aSql aParameterValues with
    | .error nm => ([], .error (.unknownParameter nm))
    | .ok (values, sql) =>
      match s.m_pool with
      | some _ =>
        match d.poolExecute sql values with
        | .ok result => ([.poolExec sql values], .ok (some result))
        | .error code =>
            ([.poolExec sql values, .logError code aDescription], .ok none)
      | none =>
        match s.m_connection with
        | some c =>
          match d.connExecute c sql values with
          | .ok result => ([.connExec c sql values], .ok (some result))
          | .error code =>
              ([.connExec c sql values, .logError code aDescription], .ok none)
        | none => ([], .error (.typeError "execute"))

/-- `insert` (pooled): `(await this.execute(...) as OkPacket).insertId`.
Reading `insertId` of `undefined` throws a `TypeError`; on a row array the
property is absent, giving `undefined`. -/
def insert (d : PDriver) (s : PState) (aSql : List Char)
    (aParameterValues : Option (List (List Char × JsValue))) :
    List Event × Except JsError JsValue :=
  match execute d s "insert" aSql aParameterValues with
  | (ev, .error e) => (ev, .error e)
  | (ev, .ok none) => (ev, .error (.typeError "insertId"))
  | (ev, .ok (some (.okPacket insertId _ _))) => (ev, .ok (.vInt insertId))
  | (ev, .ok (some (.rowSet _))) => (ev, .ok .vUndefined)

/-- `update` (pooled): `(await this.execute(...) as OkPacket).changedRows`
(the compiled `dist` build reads `affectedRows` instead; the TypeScript source
is embedded here). -/
def update (d : PDriver) (s : PState) (aSql : List Char)
    (aParameterValues : Option (List (List Char × JsValue))) :
    List Event × Except JsError JsValue :=
  match execute d s "update" aSql aParameterValues with
  | (ev, .error e) => (ev, .error e)
  | (ev, .ok none) => (ev, .error (.typeError "changedRows"))
  | (ev, .ok (some (.okPacket _ _ changedRows))) => (ev, .ok (.vInt changedRows))
  | (ev, .ok (some (.rowSet _))) => (ev, .ok .vUndefined)

/-- `rows` (pooled): returns `execute`'s result unchanged (the
`as RowDataPacket[]` cast has no runtime effect), so a swallowed failure
resolves with `undefined` (`Except.ok none`). -/
def rows (d : PDriver) (s : PState) (aSql : List Char)
    (aParameterValues : Option (List (List Char × JsValue))) :
    List Event × Except JsError (Option QueryResult) :=
  execute d s "rows" aSql aParameterValues

/-- `row` (pooled): `rows.length ? rows[0] : undefined`.  Reading `length` of
`undefined` throws a `TypeError`; on an `OkPacket` the property is absent,
`undefined` is falsy, and the call resolves with `undefined`. -/
def row (d : PDriver) (s : PState) (aSql : List Char)
    (aParameterValues : Option (List (List Char × JsValue))) :
    List Event × Except JsError (Option Row) :=
  match execute d s "row" aSql aParameterValues with
  | (ev, .error e) => (ev, .error e)
  | (ev, .ok none) => (ev, .error (.typeError "length"))
  | (ev, .ok (some (.okPacket _ _ _))) => (ev, .ok none)
  | (ev, .ok (some (.rowSet rs))) =>
      (ev, .ok (match rs with | [] => none | r :: _ => some r))

/-- `field` (pooled): first column of the first row via
`Object.keys(row)[0]`, falling back to the caller-supplied default when there
is no row or the first row has no keys.  Reading `length` of `undefined`
throws a `TypeError`. -/
def field (d : PDriver) (s : PState) (aSql : List Char)
    (aParameterValues : Option (List (List Char × JsValue)))
    (aDefault : JsValue) : List Event × Except JsError JsValue :=
  match execute d s "field" aSql aParameterValues with
  | (ev, .error e) => (ev, .error e)
  | (ev, .ok none) => (ev, .error (.typeError "length"))
  | (ev, .ok (some (.okPacket _ _ _))) => (ev, .ok aDefault)
  | (ev, .ok (some (.rowSet rs))) =>
    match rs with
    | [] => (ev, .ok aDefault)
    | r :: _ =>
      match r.map Prod.fst with
      | [] => (ev, .ok aDefault)
      | k :: _ => (ev, .ok ((r.lookup k).getD .vUndefined))

end Pooled

/-- Result of one pooled `transaction` call:

* `self` — the calling instance's fields when the call returns;
* `cbArgs` — the instances the unit-of-work callback was invoked with, one
  entry per invocation, in order;
* `events` — the issued driver calls and log messages;
* `outcome` — normal return or the propagated error. -/
structure TxResult where
  self : PState
  cbArgs : List PState
  events : List Event
  outcome : Except JsError Unit
  deriving Repr

namespace Pooled

/-- `transaction` (pooled), with the JavaScript `try`/`catch`/`finally` made
explicit.  An instance already bound to a dedicated connection just runs the
callback on itself.  Otherwise a connection is checked out of the pool, and
inside the `try`: a fresh `UFMysqlDatabase` (all fields at their initializers,
i.e. `PState` defaults) gets the connection via `useConnection`, the
transaction begins, the callback runs on the fresh instance, and on success a
commit is issued.  Any error in the `try` reaches the `catch`, which issues a
rollback and rethrows (a failing rollback replaces the error, as in
JavaScript); the `finally` always releases the connection back to the pool.
The unit-of-work callback is embedded as a function from the instance it is
handed to its own trace and outcome (no pooled-variant operation reachable
from it assigns instance fields). -/
def transaction (d : PDriver) (s : PState)
    (aCallback : PState → List Event × Except JsError Unit) : TxResult :=
  if s.m_connection ≠ none then
    match aCallback s with
    | (ev, r) => ⟨s, [s], ev, r⟩
  else
    match s.m_pool with
    | none => ⟨s, [], [], .error .noConnection⟩
    | some _ =>
      match d.getConnection with
      | .error e => ⟨s, [], [.getConn], .error (.driverError e)⟩
      | .ok conn =>
        match d.beginTransaction conn with
        | .error e =>
          match d.rollback conn with
          | .ok _ =>
              ⟨s, [], [.getConn, .beginTx conn, .rollbackTx conn, .releaseConn conn],
               .error (.driverError e)⟩
          | .error e2 =>
              ⟨s, [], [.getConn, .beginTx conn, .rollbackTx conn, .releaseConn conn],
               .error (.driverError e2)⟩
        | .ok _ =>
          match aCallback (useConnection {} conn) with
          | (cev, .error err) =>
            match d.rollback conn with
            | .ok _ =>
                ⟨s, [useConnection {} conn],
                 [.getConn, .beginTx conn] ++ cev ++ [.rollbackTx conn, .releaseConn conn],
                 .error err⟩
            | .error e2 =>
                ⟨s, [useConnection {} conn],
                 [.getConn, .beginTx conn] ++ cev ++ [.rollbackTx conn, .releaseConn conn],
                 .error (.driverError e2)⟩
          | (cev, .ok _) =>
            match d.commit conn with
            | .ok _ =>
                ⟨s, [useConnection {} conn],
                 [.getConn, .beginTx conn] ++ cev ++ [.commitTx conn, .releaseConn conn],
                 .ok ()⟩
            | .error e =>
              match d.rollback conn with
              | .ok _ =>
                  ⟨s, [useConnection {} conn],
                   [.getConn, .beginTx conn] ++ cev
                     ++ [.commitTx conn, .rollbackTx conn, .releaseConn conn],
                   .error (.driverError e)⟩
              | .error e2 =>
                  ⟨s, [useConnection {} conn],
                   [.getConn, .beginTx conn] ++ cev
                     ++ [.commitTx conn, .rollbackTx conn, .releaseConn conn],
                   .error (.driverError e2)⟩

end Pooled

/-- Instance state of the single-connection variant: the `m_...` fields of
the second `UFMysqlDatabase` class.  `nextConn` is the fresh-handle supply for
connections the driver creates (a modelling artifact: each successful
`createConnection` yields a new handle). -/
structure SState where
  m_connection : Option Nat := none
  m_host : String := ""
  m_database : String := ""
  m_user : String := ""
  m_password : String := ""
  nextConn : Nat := 0
  deriving DecidableEq, Repr

/-- Oracle for the mysql2 driver calls the single-connection variant issues.
`createConnection h` decides whether creating the connection that would get
handle `h` succeeds. -/
structure SDriver where
  connExecute : Nat → List Char → List JsValue → Except Nat QueryResult
  connEnd : Nat → Except Nat Unit
  createConnection : Nat → Except Nat Unit
  beginTransaction : Nat → Except Nat Unit
  commit : Nat → Except Nat Unit
  rollback : Nat → Except Nat Unit

namespace Single

/-- `init` (single-connection): stores the configuration, then awaits
`createConnection` and logs; a creation failure propagates (no handler). -/
def init (d : SDriver) (s : SState) (aHost aDatabase anUser aPassword : String) :
    SState × List Event × Except JsError Unit :=
  let s1 := { s with m_host := aHost, m_database := aDatabase,
                     m_user := anUser, m_password := aPassword }
  match d.createConnection s.nextConn with
  | .error e =>
      (s1, [.connCreate aHost aDatabase anUser aPassword], .error (.driverError e))
  | .ok _ =>
      ({ s1 with m_connection := some s.nextConn, nextConn := s.nextConn + 1 },
       [.connCreate aHost aDatabase anUser aPassword, .logInfo "connected to database"],
       .ok ())

/-- `reconnect`: `end()` the current connection when there is one, logging and
swallowing any failure to close; then `createConnection` from the stored
configuration.  On creation failure the error is logged and rethrown and
`m_connection` keeps its old value (the assignment never ran). -/
def reconnect (d : SDriver) (s : SState) :
    SState × List Event × Except JsError Unit :=
  let ev0 : List Event :=
    match s.m_connection with
    | some c =>
      match d.connEnd c with
      | .ok _ => [.connEnd c]
      | .error e => [.connEnd c, .logError e "ending connection"]
    | none => []
  match d.createConnection s.nextConn with
  | .ok _ =>
      ({ s with m_connection := some s.nextConn, nextConn := s.nextConn + 1 },
       ev0 ++ [.connCreate s.m_host s.m_database s.m_user s.m_password,
               .logInfo "reconnected to database"],
       .ok ())
  | .error e =>
      (s,
       ev0 ++ [.connCreate s.m_host s.m_database s.m_user s.m_password,
               .logError e "reconnecting"],
       .error (.driverError e))

/-- `execute` (single-connection): guard against a missing connection, rewrite
named parameters, dispatch.  On a dispatch failure: log it (the first `catch`
swallows), `reconnect` (whose failure propagates), then dispatch the same
statement once more on the now-current connection; a failure of the retry is
logged and rethrown. -/
def execute (d : SDriver) (s : SState) (aDescription : String) (aSql : List Char)
    (aParameterValues : Option (List (List Char × JsValue))) :
    SState × List Event × Except JsError QueryResult :=
  match s.m_connection with
  | none => (s, [], .error .noConnection)
  | some c =>
    match prepareStatement aSql aParameterValues with
    | .error nm => (s, [], .error (.unknownParameter nm))
    | .ok (values, sql) =>
      match d.connExecute c sql values with
      | .ok result => (s, [.connExec c sql values], .ok result)
      | .error code1 =>
        let ev1 : List Event := [.connExec c sql values, .logError code1 aDescription]
        match reconnect d s with
        | (s2, ev2, .error e) => (s2, ev1 ++ ev2, .error e)
        | (s2, ev2, .ok _) =>
          match s2.m_connection with
          | none => (s2, ev1 ++ ev2, .error (.typeError "execute"))
          | some c2 =>
            match d.connExecute c2 sql values with
            | .ok result => (s2, ev1 ++ ev2 ++ [.connExec c2 sql values], .ok result)
            | .error code2 =>
                (s2, ev1 ++ ev2 ++ [.connExec c2 sql values, .logError code2 aDescription],
                 .error (.driverError code2))

/-- `field` (single-connection): same result handling as the pooled variant,
on top of the reconnecting `execute` (which never resolves with
`undefined`). -/
def field (d : SDriver) (s : SState) (aSql : List Char)
    (aParameterValues : Option (List (List Char × JsValue)))
    (aDefault : JsValue) : SState × List Event × Except JsError JsValue :=
  match execute d s "field" aSql aParameterValues with
  | (s2, ev, .error e) => (s2, ev, .error e)
  | (s2, ev, .ok (.okPacket _ _ _)) => (s2, ev, .ok aDefault)
  | (s2, ev, .ok (.rowSet rs)) =>
    match rs with
    | [] => (s2, ev, .ok aDefault)
    | r :: _ =>
      match r.map Prod.fst with
      | [] => (s2, ev, .ok aDefault)
      | k :: _ => (s2, ev, .ok ((r.lookup k).getD .vUndefined))

end Single

/-- Result of one single-connection `transaction` call; the unit-of-work
callback receives `this`, so it may mutate the instance (e.g. via a
reconnecting `execute`), hence it maps the instance state to an updated state
besides its trace and outcome. -/
structure STxResult where
  self : SState
  cbArgs : List SState
  events : List Event
  outcome : Except JsError Unit
  deriving Repr

namespace Single

/-- `transaction` (single-connection): guard, then `beginTransaction` *before*
the `try` (a begin failure propagates with no rollback); inside the `try` the
callback runs on `this` and a commit is issued on the then-current connection;
the `catch` issues a rollback and rethrows.  There is no release step. -/
def transaction (d : SDriver) (s : SState)
    (aCallback : SState → SState × List Event × Except JsError Unit) : STxResult :=
  match s.m_connection with
  | none => ⟨s, [], [], .error .noConnection⟩
  | some c =>
    match d.beginTransaction c with
    | .error e => ⟨s, [], [.beginTx c], .error (.driverError e)⟩
    | .ok _ =>
      match aCallback s with
      | (s2, cev, .ok _) =>
        match s2.m_connection with
        | none => ⟨s2, [s], [.beginTx c] ++ cev, .error (.typeError "commit")⟩
        | some c2 =>
          match d.commit c2 with
          | .ok _ => ⟨s2, [s], [.beginTx c] ++ cev ++ [.commitTx c2], .ok ()⟩
          | .error e =>
            match d.rollback c2 with
            | .ok _ =>
                ⟨s2, [s], [.beginTx c] ++ cev ++ [.commitTx c2, .rollbackTx c2],
                 .error (.driverError e)⟩
            | .error e2 =>
                ⟨s2, [s], [.beginTx c] ++ cev ++ [.commitTx c2, .rollbackTx c2],
                 .error (.driverError e2)⟩
      | (s2, cev, .error err) =>
        match s2.m_connection with
        | none => ⟨s2, [s], [.beginTx c] ++ cev, .error (.typeError "rollback")⟩
        | some c2 =>
          match d.rollback c2 with
          | .ok _ =>
              ⟨s2, [s], [.beginTx c] ++ cev ++ [.rollbackTx c2], .error err⟩
          | .error e2 =>
              ⟨s2, [s], [.beginTx c] ++ cev ++ [.rollbackTx c2],
               .error (.driverError e2)⟩

end Single

/-- The number of statement dispatches (`connExec` calls) in a trace. -/
def dispatchCount (evs : List Event) : Nat :=
  (evs.filter fun e => match e with | .connExec _ _ _ => true | _ => false).length

/-- Reachable states of a transaction-scoped pooled instance: it is
constructed fresh inside `transaction` and handed its dedicated connection via
`useConnection`; thereafter only `IUFDatabase` operations run on it.  Of
those, `insert`, `update`, `rows`, `row` and `field` (all through the pooled
`execute`) assign no instance field, so the only state-relevant operation is a
nested `transaction` call. -/
inductive ScopedReach : PState → Prop
  | create (conn : Nat) : ScopedReach (Pooled.useConnection {} conn)
  | txStep (d : PDriver) (cb : PState → List Event × Except JsError Unit)
      {s : PState} : ScopedReach s → ScopedReach (Pooled.transaction d s cb).self

/-- Reachable states of a caller-created pooled instance, from construction
(`new UFMysqlDatabase(aLog)`, all fields at their initializers) onward, under
the public operations that can assign fields: `init` (succeeding or not) and
`transaction`.  `insert`, `update`, `rows`, `row` and `field` assign no
instance field in the pooled variant. -/
inductive PClientReach : PState → Prop
  | construct : PClientReach {}
  | initStep (d : PDriver) (h db u p : String) {s : PState} :
      PClientReach s → PClientReach (Pooled.init d s h db u p).1
  | txStep (d : PDriver) (cb : PState → List Event × Except JsError Unit)
      {s : PState} : PClientReach s → PClientReach (Pooled.transaction d s cb).self

/-- Reachable states of a single-connection instance from a *successful*
`init` onward, under the operations that assign fields: `init` again,
`execute` (which may `reconnect`) and `reconnect` itself.  `transaction`
assigns no field of its own — the state it returns is whatever the unit of
work (client code composed of these same operations) left behind — and the
remaining public operations all go through `execute`. -/
inductive SInitedReach : SState → Prop
  | initOk (d : SDriver) (s : SState) (h db u p : String)
      (hok : (Single.init d s h db u p).2.2 = Except.ok ()) :
      SInitedReach (Single.init d s h db u p).1
  | initStep (d : SDriver) (h db u p : String) {s : SState} :
      SInitedReach s → SInitedReach (Single.init d s h db u p).1
  | execStep (d : SDriver) (desc : String) (sql : List Char)
      (ps : Option (List (List Char × JsValue))) {s : SState} :
      SInitedReach s → SInitedReach (Single.execute d s desc sql ps).1
  | reconnectStep (d : SDriver) {s : SState} :
      SInitedReach s → SInitedReach (Single.reconnect d s).1

/-! ## Concrete oracles for witnesses -/

/-- A pooled-variant driver oracle whose every statement dispatch fails with
driver error code 1045; all other driver operations succeed. -/
def failingPDriver : PDriver where
  poolExecute := fun _ _ => .error 1045
  connExecute := fun _ _ _ => .error 1045
  getConnection := .ok 7
  beginTransaction := fun _ => .ok ()
  commit := fun _ => .ok ()
  rollback := fun _ => .ok ()
  createPool := .ok 3

/-- A pooled-variant driver oracle for which every operation succeeds. -/
def okPDriver : PDriver where
  poolExecute := fun _ _ => .ok (.okPacket 1 1 1)
  connExecute := fun _ _ _ => .ok (.okPacket 1 1 1)
  getConnection := .ok 7
  beginTransaction := fun _ => .ok ()
  commit := fun _ => .ok ()
  rollback := fun _ => .ok ()
  createPool := .ok 3

/-- A single-connection driver oracle for which every operation succeeds. -/
def okSDriver : SDriver where
  connExecute := fun _ _ _ => .ok (.okPacket 1 1 1)
  connEnd := fun _ => .ok ()
  createConnection := fun _ => .ok ()
  beginTransaction := fun _ => .ok ()
  commit := fun _ => .ok ()
  rollback := fun _ => .ok ()

/-- A pooled driver whose pool creation fails with code 2002. -/
def badCreatePDriver : PDriver := { okPDriver with createPool := .error 2002 }

/-- A single-connection driver whose connection creation fails with code
2002. -/
def badCreateSDriver : SDriver :=
  { okSDriver with createConnection := fun _ => .error 2002 }

/-- A single-connection driver for which dispatch fails on connection 0 with
code 1045 and succeeds on every later connection. -/
def flakySDriver : SDriver :=
  { okSDriver with
    connExecute := fun c _ _ => if c = 0 then .error 1045 else .ok (.okPacket 1 1 1) }

/-- A pooled driver whose dispatches yield one row with one column. -/
def rowsPDriver : PDriver :=
  { okPDriver with poolExecute := fun _ _ => .ok (.rowSet [[("name", .vStr "x")]]) }

/-- A single-connection driver whose dispatches yield one row with one
column. -/
def rowsSDriver : SDriver :=
  { okSDriver with connExecute := fun _ _ _ => .ok (.rowSet [[("name", .vStr "x")]]) }

/-- A unit of work that performs no database calls and succeeds. -/
def okPCallback : PState → List Event × Except JsError Unit := fun _ => ([], .ok ())

/-- A unit of work that fails with driver error 99. -/
def failPCallback : PState → List Event × Except JsError Unit :=
  fun _ => ([], .error (.driverError 99))

/-- A single-connection unit of work that leaves the instance untouched and
succeeds. -/
def okSCallback : SState → SState × List Event × Except JsError Unit :=
  fun t => (t, [], .ok ())

/-- A single-connection unit of work that leaves the instance untouched and
fails with driver error 99. -/
def failSCallback : SState → SState × List Event × Except JsError Unit :=
  fun t => (t, [], .error (.driverError 99))

/-! ## Helper lemmas -/

/-- A pooled `transaction` never assigns the calling instance's fields. -/
theorem transaction_self_eq (d : PDriver) (s : PState)
    (cb : PState → List Event × Except JsError Unit) :
    (Pooled.transaction d s cb).self = s := by
  unfold Pooled.transaction
  repeat' split
  all_goals rfl

/-- Folding "append one element" over a list is `map`. -/
theorem foldl_append_singleton {α β : Type} (f : α → β) :
    ∀ (l : List α) (a : List β),
      l.foldl (fun s x => s ++ [f x]) a = a ++ l.map f
  | [], a => by simp
  | x :: t, a => by
    simp [List.foldl_cons, foldl_append_singleton f t (a ++ [f x])]

/-- When every placeholder of the SQL text has a matching key, the rewrite
succeeds and the callback is applied once per placeholder occurrence, in
left-to-right occurrence order (the callback state is the left fold over the
occurrences). -/
theorem processSqlParameters_traces {σ : Type}
    (aParameterValues : List (List Char × JsValue))
    (callback : σ → List Char → JsValue → σ × List Char)
    (sql : List Char) (st : σ)
    (h : ∀ nm ∈ placeholderNames sql, (aParameterValues.lookup nm).isSome) :
    ∃ out, processSqlParameters aParameterValues callback sql st =
      .ok ((placeholderNames sql).foldl
            (fun s nm =>
              (callback s nm ((aParameterValues.lookup nm).getD .vUndefined)).1)
            st, out) := by
  match sql with
  | [] =>
    exact ⟨[], by simp [processSqlParameters, placeholderNames]⟩
  | c :: rest =>
    by_cases hc : c = ':'
    · cases htw : rest.takeWhile isNameChar with
      | nil =>
        have hph : placeholderNames (c :: rest) = placeholderNames rest := by
          rw [placeholderNames, if_pos hc, htw]
        rw [hph] at h ⊢
        obtain ⟨out, hout⟩ :=
          processSqlParameters_traces aParameterValues callback rest st h
        refine ⟨c :: out, ?_⟩
        rw [processSqlParameters, if_pos hc, htw, hout]
      | cons n0 nr =>
        have hph : placeholderNames (c :: rest) =
            (n0 :: nr) :: placeholderNames (rest.dropWhile isNameChar) := by
          rw [placeholderNames, if_pos hc, htw]
        have hhead : ((aParameterValues.lookup (n0 :: nr)).isSome) := by
          apply h
          rw [hph]; exact List.mem_cons_self _ _
        obtain ⟨v, hv⟩ := Option.isSome_iff_exists.mp hhead
        rcases hcb : callback st (n0 :: nr) v with ⟨st1, rep⟩
        have hrest : ∀ nm ∈ placeholderNames (rest.dropWhile isNameChar),
            (aParameterValues.lookup nm).isSome := by
          intro nm hnm
          apply h
          rw [hph]; exact List.mem_cons_of_mem _ hnm
        obtain ⟨out, hout⟩ := processSqlParameters_traces aParameterValues callback
          (rest.dropWhile isNameChar) st1 hrest
        refine ⟨rep ++ out, ?_⟩
        rw [processSqlParameters, if_pos hc, htw, hph]
        simp [hv, hcb, hout, List.foldl_cons]
    · have hph : placeholderNames (c :: rest) = placeholderNames rest := by
        rw [placeholderNames, if_neg hc]
      rw [hph] at h ⊢
      obtain ⟨out, hout⟩ :=
        processSqlParameters_traces aParameterValues callback rest st h
      refine ⟨c :: out, ?_⟩
      rw [processSqlParameters, if_neg hc, hout]
termination_by sql.length
decreasing_by
  all_goals simp
  all_goals exact Nat.lt_succ_of_le (List.dropWhile_sublist isNameChar).length_le

/-! ## Claim theorems -/

/-- C2: For every parameter map and SQL text whose named placeholders all have
matching keys, the rewrite performed before dispatch produces a positional
value sequence whose length equals the number of placeholder occurrences in
the text, with values ordered by the left-to-right occurrence order of the
placeholders they replace. -/
theorem rewrite_positional_order (aSql : List Char)
    (aParameterValues : List (List Char × JsValue))
    (h : ∀ nm ∈ placeholderNames aSql, (aParameterValues.lookup nm).isSome) :
    ∃ values out,
      rewriteForExecute aSql aParameterValues = .ok (values, out) ∧
      values.length = (placeholderNames aSql).length ∧
      values = (placeholderNames aSql).map
        (fun nm => (aParameterValues.lookup nm).getD .vUndefined) := by
  obtain ⟨out, hout⟩ := processSqlParameters_traces aParameterValues
    (fun values _ value => (values ++ [value], ['?'])) aSql []
    h
  refine ⟨_, out, ?_, ?_, rfl⟩
  · rw [rewriteForExecute, hout]
    simp [foldl_append_singleton]
  · simp

/-- Witness for C2: the rewrite of `a=:x, b=:y` with map `x ↦ 1, y ↦ 2`. -/
theorem rewrite_positional_order_witness :
    ∃ values out,
      rewriteForExecute "a=:x, b=:y".data
        [("x".data, JsValue.vInt 1), ("y".data, JsValue.vInt 2)] =
        .ok (values, out) ∧
      values.length = (placeholderNames "a=:x, b=:y".data).length ∧
      values = (placeholderNames "a=:x, b=:y".data).map
        (fun nm =>
          (([("x".data, JsValue.vInt 1),
             ("y".data, JsValue.vInt 2)].lookup nm).getD .vUndefined)) :=
  rewrite_positional_order _ _
    (by simp +decide [placeholderNames, isNameChar, String.data, List.lookup])

/-- C1 (counterexample): the claim says a pooled `insert` whose dispatch fails
at the driver "resolves normally with an empty/undefined outcome".  With every
dispatch failing (driver code 1045) on an initialized pooled instance, the
call instead rejects with a `TypeError` from reading `insertId` of the
undefined result `execute` returned. -/
theorem pooled_swallow_claim_counterexample :
    (Pooled.insert failingPDriver ⟨none, some 3, "h", "d", "u", "pw"⟩
      "select 1".data none).2 = .error (.typeError "insertId") := by
  simp [Pooled.insert, Pooled.execute, prepareStatement, failingPDriver]

/-- C1 (amended): in the pooled variant, when the statement dispatch of
`insert`, `update`, `rows`, `row` or `field` fails at the driver, the error is
logged and `execute` itself resolves with `undefined`, so the driver error is
never surfaced; `rows` therefore resolves normally with an undefined outcome,
but `insert`, `update`, `row` and `field` then reject with a `TypeError`
raised when they read a property of the undefined result. -/
theorem pooled_dispatch_failure_logged_and_swallowed
    (d : PDriver) (p : Nat) (host db user pw : String) (aSql : List Char)
    (ps : Option (List (List Char × JsValue))) (values : List JsValue)
    (out : List Char) (code : Nat) (dflt : JsValue)
    (hrw : prepareStatement aSql ps = .ok (values, out))
    (hfail : d.poolExecute out values = .error code) :
    (Pooled.rows d ⟨none, some p, host, db, user, pw⟩ aSql ps).2 = .ok none ∧
    Event.logError code "rows" ∈
      (Pooled.rows d ⟨none, some p, host, db, user, pw⟩ aSql ps).1 ∧
    (Pooled.insert d ⟨none, some p, host, db, user, pw⟩ aSql ps).2 =
      .error (.typeError "insertId") ∧
    Event.logError code "insert" ∈
      (Pooled.insert d ⟨none, some p, host, db, user, pw⟩ aSql ps).1 ∧
    (Pooled.update d ⟨none, some p, host, db, user, pw⟩ aSql ps).2 =
      .error (.typeError "changedRows") ∧
    Event.logError code "update" ∈
      (Pooled.update d ⟨none, some p, host, db, user, pw⟩ aSql ps).1 ∧
    (Pooled.row d ⟨none, some p, host, db, user, pw⟩ aSql ps).2 =
      .error (.typeError "length") ∧
    Event.logError code "row" ∈
      (Pooled.row d ⟨none, some p, host, db, user, pw⟩ aSql ps).1 ∧
    (Pooled.field d ⟨none, some p, host, db, user, pw⟩ aSql ps dflt).2 =
      .error (.typeError "length") ∧
    Event.logError code "field" ∈
      (Pooled.field d ⟨none, some p, host, db, user, pw⟩ aSql ps dflt).1 := by
  simp [Pooled.rows, Pooled.insert, Pooled.update, Pooled.row, Pooled.field,
    Pooled.execute, hrw, hfail]

/-- Witness for C1 (amended) at a concrete driver, instance and statement. -/
theorem pooled_dispatch_failure_witness :
    (Pooled.rows failingPDriver ⟨none, some 3, "h", "d", "u", "pw"⟩
      "select 1".data none).2 = .ok none ∧
    Event.logError 1045 "rows" ∈
      (Pooled.rows failingPDriver ⟨none, some 3, "h", "d", "u", "pw"⟩
        "select 1".data none).1 ∧
    (Pooled.insert failingPDriver ⟨none, some 3, "h", "d", "u", "pw"⟩
      "select 1".data none).2 = .error (.typeError "insertId") ∧
    Event.logError 1045 "insert" ∈
      (Pooled.insert failingPDriver ⟨none, some 3, "h", "d", "u", "pw"⟩
        "select 1".data none).1 ∧
    (Pooled.update failingPDriver ⟨none, some 3, "h", "d", "u", "pw"⟩
      "select 1".data none).2 = .error (.typeError "changedRows") ∧
    Event.logError 1045 "update" ∈
      (Pooled.update failingPDriver ⟨none, some 3, "h", "d", "u", "pw"⟩
        "select 1".data none).1 ∧
    (Pooled.row failingPDriver ⟨none, some 3, "h", "d", "u", "pw"⟩
      "select 1".data none).2 = .error (.typeError "length") ∧
    Event.logError 1045 "row" ∈
      (Pooled.row failingPDriver ⟨none, some 3, "h", "d", "u", "pw"⟩
        "select 1".data none).1 ∧
    (Pooled.field failingPDriver ⟨none, some 3, "h", "d", "u", "pw"⟩
      "select 1".data none .vNull).2 = .error (.typeError "length") ∧
    Event.logError 1045 "field" ∈
      (Pooled.field failingPDriver ⟨none, some 3, "h", "d", "u", "pw"⟩
        "select 1".data none .vNull).1 :=
  pooled_dispatch_failure_logged_and_swallowed failingPDriver 3 "h" "d" "u" "pw"
    "select 1".data none [] "select 1".data 1045 .vNull rfl rfl

/-- Unfolding lemma: a pooled `transaction` on a client instance (no dedicated
connection, pool present) when the pool yields no connection. -/
theorem pooled_transaction_getfail (d : PDriver) (s : PState) (p e : Nat)
    (cb : PState → List Event × Except JsError Unit)
    (hconn : s.m_connection = none) (hpool : s.m_pool = some p)
    (hget : d.getConnection = .error e) :
    Pooled.transaction d s cb = ⟨s, [], [.getConn], .error (.driverError e)⟩ := by
  unfold Pooled.transaction
  simp [hconn, hpool, hget]

/-- Unfolding lemma: a pooled `transaction` on a client instance when
`beginTransaction` fails: the `catch` rolls back and rethrows, the `finally`
releases, and the unit of work is never invoked. -/
theorem pooled_transaction_beginfail (d : PDriver) (s : PState) (p conn e : Nat)
    (cb : PState → List Event × Except JsError Unit)
    (hconn : s.m_connection = none) (hpool : s.m_pool = some p)
    (hget : d.getConnection = .ok conn)
    (hbeg : d.beginTransaction conn = .error e) :
    Pooled.transaction d s cb =
      ⟨s, [], [.getConn, .beginTx conn, .rollbackTx conn, .releaseConn conn],
       match d.rollback conn with
       | .ok _ => .error (.driverError e)
       | .error e2 => .error (.driverError e2)⟩ := by
  unfold Pooled.transaction
  rcases hrb : d.rollback conn with e2 | u <;>
    simp [hconn, hpool, hget, hbeg, hrb]

/-- Unfolding lemma: a pooled `transaction` on a client instance once the
transaction has begun, for every behavior of the unit of work and of
commit/rollback. -/
theorem pooled_transaction_begun (d : PDriver) (s : PState) (p conn : Nat)
    (cb : PState → List Event × Except JsError Unit)
    (hconn : s.m_connection = none) (hpool : s.m_pool = some p)
    (hget : d.getConnection = .ok conn)
    (hbeg : d.beginTransaction conn = .ok ()) :
    Pooled.transaction d s cb =
      match cb (Pooled.useConnection {} conn) with
      | (cev, .error err) =>
        ⟨s, [Pooled.useConnection {} conn],
         [.getConn, .beginTx conn] ++ cev ++ [.rollbackTx conn, .releaseConn conn],
         match d.rollback conn with
         | .ok _ => .error err
         | .error e2 => .error (.driverError e2)⟩
      | (cev, .ok _) =>
        match d.commit conn with
        | .ok _ =>
          ⟨s, [Pooled.useConnection {} conn],
           [.getConn, .beginTx conn] ++ cev ++ [.commitTx conn, .releaseConn conn],
           .ok ()⟩
        | .error e =>
          ⟨s, [Pooled.useConnection {} conn],
           [.getConn, .beginTx conn] ++ cev
             ++ [.commitTx conn, .rollbackTx conn, .releaseConn conn],
           match d.rollback conn with
           | .ok _ => .error (.driverError e)
           | .error e2 => .error (.driverError e2)⟩ := by
  unfold Pooled.transaction
  rcases hcb : cb (Pooled.useConnection {} conn) with ⟨cev, cres⟩
  rcases cres with err | u
  · rcases hrb : d.rollback conn with e2 | u <;>
      simp [hconn, hpool, hget, hbeg, hcb, hrb]
  · rcases hcm : d.commit conn with e | u2
    · rcases hrb : d.rollback conn with e2 | u3 <;>
        simp [hconn, hpool, hget, hbeg, hcb, hcm, hrb]
    · simp [hconn, hpool, hget, hbeg, hcb, hcm]

/-- C7: an operation attempted on an instance that holds neither a pool nor a
connection raises the connectivity error immediately: the outcome is the
`noConnection` error, the trace is empty (nothing was dispatched or logged),
the state is untouched, and — since the conclusion holds for every statement
and parameter map — the failure precedes any statement rewrite. -/
theorem uninitialized_operation_raises_immediately
    (d : PDriver) (d2 : SDriver) (host db user pw h2 db2 u2 pw2 : String)
    (n : Nat) (desc : String) (aSql : List Char)
    (ps : Option (List (List Char × JsValue)))
    (cb : PState → List Event × Except JsError Unit)
    (cb2 : SState → SState × List Event × Except JsError Unit) :
    Pooled.execute d ⟨none, none, host, db, user, pw⟩ desc aSql ps =
      ([], .error .noConnection) ∧
    Pooled.transaction d ⟨none, none, host, db, user, pw⟩ cb =
      ⟨⟨none, none, host, db, user, pw⟩, [], [], .error .noConnection⟩ ∧
    Single.execute d2 ⟨none, h2, db2, u2, pw2, n⟩ desc aSql ps =
      (⟨none, h2, db2, u2, pw2, n⟩, [], .error .noConnection) ∧
    Single.transaction d2 ⟨none, h2, db2, u2, pw2, n⟩ cb2 =
      ⟨⟨none, h2, db2, u2, pw2, n⟩, [], [], .error .noConnection⟩ := by
  refine ⟨?_, ?_, ?_, ?_⟩
  · simp [Pooled.execute]
  · simp [Pooled.transaction]
  · simp [Single.execute]
  · simp [Single.transaction]

/-- C6: `init` propagates a failure to establish connectivity: when the
driver's pool/connection creation primitive fails, the call rejects with that
error rather than completing normally (both variants; `init` installs no
handler around the creation call). -/
theorem init_propagates_connect_failure
    (d : PDriver) (d2 : SDriver) (s : PState) (t : SState)
    (host db user pw : String) (e e2 : Nat)
    (hp : d.createPool = .error e)
    (hc : d2.createConnection t.nextConn = .error e2) :
    (Pooled.init d s host db user pw).2.2 = .error (.driverError e) ∧
    (Single.init d2 t host db user pw).2.2 = .error (.driverError e2) := by
  constructor
  · simp [Pooled.init, hp]
  · simp [Single.init, hc]

/-- Witness for C6: both variants' `init` against drivers whose creation
primitive fails with code 2002. -/
theorem init_propagates_connect_failure_witness :
    (Pooled.init badCreatePDriver {} "h" "d" "u" "pw").2.2 =
      .error (.driverError 2002) ∧
    (Single.init badCreateSDriver {} "h" "d" "u" "pw").2.2 =
      .error (.driverError 2002) :=
  init_propagates_connect_failure badCreatePDriver badCreateSDriver {} {}
    "h" "d" "u" "pw" 2002 2002 rfl rfl

/-- C5: on an adapter instance already bound to a dedicated connection (a
transaction participant), `transaction` invokes the unit of work exactly once
with that same instance and returns: the callback-argument list is `[s]`, and
the trace and outcome are exactly the callback's own, so `transaction` itself
issues no second begin/commit/rollback. -/
theorem nested_transaction_runs_callback_once
    (d : PDriver) (s : PState)
    (cb : PState → List Event × Except JsError Unit)
    (h : s.m_connection ≠ none) :
    Pooled.transaction d s cb = ⟨s, [s], (cb s).1, (cb s).2⟩ := by
  rcases hcb : cb s with ⟨ev, r⟩
  unfold Pooled.transaction
  simp [h, hcb]

/-- Witness for C5: a scoped instance bound to connection 7 running a trivial
unit of work. -/
theorem nested_transaction_witness :
    Pooled.transaction okPDriver ⟨some 7, none, "", "", "", ""⟩ okPCallback =
      ⟨⟨some 7, none, "", "", "", ""⟩, [⟨some 7, none, "", "", "", ""⟩],
       [], .ok ()⟩ :=
  nested_transaction_runs_callback_once okPDriver ⟨some 7, none, "", "", "", ""⟩
    okPCallback (by simp)

/-- C10: in the pooled variant, a `transaction` call on an instance not bound
to a dedicated connection leaves the calling instance's own fields (null
connection, pool reference, stored configuration) unchanged, and the unit of
work is only ever invoked with the newly constructed instance bound to the
checked-out connection — never with the calling instance. -/
theorem pooled_transaction_frame
    (d : PDriver) (s : PState) (p : Nat)
    (cb : PState → List Event × Except JsError Unit)
    (hconn : s.m_connection = none) (hpool : s.m_pool = some p) :
    (Pooled.transaction d s cb).self = s ∧
    (∀ a ∈ (Pooled.transaction d s cb).cbArgs, a ≠ s) ∧
    (∀ conn, d.getConnection = .ok conn → d.beginTransaction conn = .ok () →
      (Pooled.transaction d s cb).cbArgs = [Pooled.useConnection {} conn]) := by
  have hargs : (Pooled.transaction d s cb).cbArgs = [] ∨
      ∃ conn, (Pooled.transaction d s cb).cbArgs = [Pooled.useConnection {} conn] := by
    rcases hget : d.getConnection with e | conn
    · rw [pooled_transaction_getfail d s p e cb hconn hpool hget]
      left; rfl
    · rcases hbeg : d.beginTransaction conn with e | u
      · rw [pooled_transaction_beginfail d s p conn e cb hconn hpool hget hbeg]
        left; rfl
      · rw [pooled_transaction_begun d s p conn cb hconn hpool hget hbeg]
        rcases hcb : cb (Pooled.useConnection {} conn) with ⟨cev, cres⟩
        rcases cres with err | u2
        · right; exact ⟨conn, rfl⟩
        · rcases hcm : d.commit conn with e | u3 <;> right <;> exact ⟨conn, by simp [hcm]⟩
  refine ⟨transaction_self_eq d s cb, ?_, ?_⟩
  · intro a ha heq
    rcases hargs with h0 | ⟨conn, h1⟩
    · rw [h0] at ha
      exact absurd ha (List.not_mem_nil a)
    · rw [h1] at ha
      rw [List.mem_singleton] at ha
      rw [heq] at ha
      have := congrArg PState.m_connection ha
      rw [hconn] at this
      simp [Pooled.useConnection] at this
  · intro conn hget hbeg
    rw [pooled_transaction_begun d s p conn cb hconn hpool hget hbeg]
    rcases hcb : cb (Pooled.useConnection {} conn) with ⟨cev, cres⟩
    rcases cres with err | u2
    · rfl
    · rcases hcm : d.commit conn with e | u3 <;> simp [hcm]

/-- Witness for C10: a concrete pooled instance, with every driver operation
succeeding and a trivial unit of work. -/
theorem pooled_transaction_frame_witness :
    (Pooled.transaction okPDriver ⟨none, some 3, "h", "d", "u", "pw"⟩
        okPCallback).self = ⟨none, some 3, "h", "d", "u", "pw"⟩ ∧
    (∀ a ∈ (Pooled.transaction okPDriver ⟨none, some 3, "h", "d", "u", "pw"⟩
        okPCallback).cbArgs, a ≠ ⟨none, some 3, "h", "d", "u", "pw"⟩) ∧
    (Pooled.transaction okPDriver ⟨none, some 3, "h", "d", "u", "pw"⟩
        okPCallback).cbArgs = [Pooled.useConnection {} 7] := by
  have h := pooled_transaction_frame okPDriver
    ⟨none, some 3, "h", "d", "u", "pw"⟩ 3 okPCallback rfl rfl
  exact ⟨h.1, h.2.1, h.2.2 7 rfl rfl⟩

/-- C4: a `transaction` whose unit of work throws issues a rollback on the
transaction's connection before the error propagates to the caller; a unit of
work that completes normally is followed by a commit; and in the pooled
variant the checked-out connection is released back to the pool in both
cases.  (Rollback and the single-variant connection bookkeeping are assumed
well-behaved: the rollback call succeeds and the unit of work leaves a
connection bound.) -/
theorem transaction_commit_rollback_release
    (d : PDriver) (d2 : SDriver) (s : PState) (t : SState)
    (p conn c c2 : Nat)
    (cb : PState → List Event × Except JsError Unit)
    (cb2 : SState → SState × List Event × Except JsError Unit)
    (hconn : s.m_connection = none) (hpool : s.m_pool = some p)
    (hget : d.getConnection = .ok conn)
    (hbeg : d.beginTransaction conn = .ok ())
    (hrb : d.rollback conn = .ok ())
    (ht : t.m_connection = some c)
    (hbeg2 : d2.beginTransaction c = .ok ())
    (ht2 : ((cb2 t).1).m_connection = some c2)
    (hrb2 : d2.rollback c2 = .ok ()) :
    (∀ cev err, cb (Pooled.useConnection {} conn) = (cev, .error err) →
        (Pooled.transaction d s cb).outcome = .error err ∧
        Event.rollbackTx conn ∈ (Pooled.transaction d s cb).events ∧
        Event.releaseConn conn ∈ (Pooled.transaction d s cb).events) ∧
    (∀ cev, cb (Pooled.useConnection {} conn) = (cev, .ok ()) →
        d.commit conn = .ok () →
        (Pooled.transaction d s cb).outcome = .ok () ∧
        Event.commitTx conn ∈ (Pooled.transaction d s cb).events ∧
        Event.releaseConn conn ∈ (Pooled.transaction d s cb).events) ∧
    (∀ err, (cb2 t).2.2 = .error err →
        (Single.transaction d2 t cb2).outcome = .error err ∧
        Event.rollbackTx c2 ∈ (Single.transaction d2 t cb2).events) ∧
    ((cb2 t).2.2 = .ok () → d2.commit c2 = .ok () →
        (Single.transaction d2 t cb2).outcome = .ok () ∧
        Event.commitTx c2 ∈ (Single.transaction d2 t cb2).events) := by
  refine ⟨?_, ?_, ?_, ?_⟩
  · intro cev err hcb
    rw [pooled_transaction_begun d s p conn cb hconn hpool hget hbeg, hcb]
    simp [hrb]
  · intro cev hcb hcm
    rw [pooled_transaction_begun d s p conn cb hconn hpool hget hbeg, hcb]
    simp [hcm]
  · intro err hcres
    rcases hcb : cb2 t with ⟨t2, cev2, cres2⟩
    rw [hcb] at hcres ht2
    simp at hcres ht2
    unfold Single.transaction
    simp [ht, hbeg2, hcb, hcres, ht2, hrb2]
  · intro hcres hcm2
    rcases hcb : cb2 t with ⟨t2, cev2, cres2⟩
    rw [hcb] at hcres ht2
    simp at hcres ht2
    unfold Single.transaction
    simp [ht, hbeg2, hcb, hcres, ht2, hcm2]

/-- Witness for C4: a failing unit of work on a pooled instance (rollback and
release observed) and a succeeding one on a single-connection instance
(commit observed). -/
theorem transaction_commit_rollback_release_witness :
    (Pooled.transaction okPDriver ⟨none, some 3, "h", "d", "u", "pw"⟩
        failPCallback).outcome = .error (.driverError 99) ∧
    Event.rollbackTx 7 ∈ (Pooled.transaction okPDriver
        ⟨none, some 3, "h", "d", "u", "pw"⟩ failPCallback).events ∧
    Event.releaseConn 7 ∈ (Pooled.transaction okPDriver
        ⟨none, some 3, "h", "d", "u", "pw"⟩ failPCallback).events ∧
    (Single.transaction okSDriver ⟨some 5, "h", "d", "u", "pw", 6⟩
        okSCallback).outcome = .ok () ∧
    Event.commitTx 5 ∈ (Single.transaction okSDriver
        ⟨some 5, "h", "d", "u", "pw", 6⟩ okSCallback).events := by
  have h := transaction_commit_rollback_release okPDriver okSDriver
    ⟨none, some 3, "h", "d", "u", "pw"⟩ ⟨some 5, "h", "d", "u", "pw", 6⟩
    3 7 5 5 failPCallback okSCallback rfl rfl rfl rfl rfl rfl rfl rfl rfl
  obtain ⟨h1, h2, h3⟩ := h.1 [] (.driverError 99) rfl
  obtain ⟨h4, h5⟩ := h.2.2.2 rfl rfl
  exact ⟨h1, h2, h3, h4, h5⟩

/-- C3: in the single-connection variant, when the first dispatch of a
statement fails, `execute` logs the failure, closes the existing connection
(logging but swallowing any failure to close), creates a fresh connection
from the stored configuration, and retries the original statement exactly
once: if the reconnect fails, the call logs and rethrows that error with no
retry (one dispatch in total); otherwise exactly one retry of the same
statement is dispatched, whose failure is logged and rethrown and whose
success is returned (two dispatches in total, never more). -/
theorem single_execute_reconnect_retry_once
    (d : SDriver) (s : SState) (c : Nat) (desc : String) (aSql : List Char)
    (ps : Option (List (List Char × JsValue))) (values : List JsValue)
    (out : List Char) (e1 : Nat)
    (hc : s.m_connection = some c)
    (hrw : prepareStatement aSql ps = .ok (values, out))
    (h1 : d.connExecute c out values = .error e1) :
    Event.logError e1 desc ∈ (Single.execute d s desc aSql ps).2.1 ∧
    Event.connEnd c ∈ (Single.execute d s desc aSql ps).2.1 ∧
    Event.connCreate s.m_host s.m_database s.m_user s.m_password ∈
      (Single.execute d s desc aSql ps).2.1 ∧
    (∀ ee, d.connEnd c = .error ee →
      Event.logError ee "ending connection" ∈ (Single.execute d s desc aSql ps).2.1) ∧
    (∀ e2, d.createConnection s.nextConn = .error e2 →
      (Single.execute d s desc aSql ps).2.2 = .error (.driverError e2) ∧
      Event.logError e2 "reconnecting" ∈ (Single.execute d s desc aSql ps).2.1 ∧
      dispatchCount (Single.execute d s desc aSql ps).2.1 = 1) ∧
    (d.createConnection s.nextConn = .ok () →
      Event.connExec s.nextConn out values ∈ (Single.execute d s desc aSql ps).2.1 ∧
      dispatchCount (Single.execute d s desc aSql ps).2.1 = 2 ∧
      (∀ r, d.connExecute s.nextConn out values = .ok r →
        (Single.execute d s desc aSql ps).2.2 = .ok r ∧
        (Single.execute d s desc aSql ps).1.m_connection = some s.nextConn) ∧
      (∀ e3, d.connExecute s.nextConn out values = .error e3 →
        (Single.execute d s desc aSql ps).2.2 = .error (.driverError e3) ∧
        Event.logError e3 desc ∈ (Single.execute d s desc aSql ps).2.1)) := by
  rcases hce : d.connEnd c with ee | u0
  · rcases hcr : d.createConnection s.nextConn with e2 | u1
    · simp [Single.execute, Single.reconnect, hc, hrw, h1, hce, hcr, dispatchCount]
    · rcases hre : d.connExecute s.nextConn out values with e3 | r
      · simp [Single.execute, Single.reconnect, hc, hrw, h1, hce, hcr, hre,
          dispatchCount]
      · simp [Single.execute, Single.reconnect, hc, hrw, h1, hce, hcr, hre,
          dispatchCount]
  · rcases hcr : d.createConnection s.nextConn with e2 | u1
    · simp [Single.execute, Single.reconnect, hc, hrw, h1, hce, hcr, dispatchCount]
    · rcases hre : d.connExecute s.nextConn out values with e3 | r
      · simp [Single.execute, Single.reconnect, hc, hrw, h1, hce, hcr, hre,
          dispatchCount]
      · simp [Single.execute, Single.reconnect, hc, hrw, h1, hce, hcr, hre,
          dispatchCount]

/-- Witness for C3: a driver failing on connection 0 and succeeding on the
fresh connection 1: the retry succeeds and exactly two dispatches occur. -/
theorem single_execute_retry_witness :
    (Single.execute flakySDriver ⟨some 0, "h", "d", "u", "pw", 1⟩ "row"
        "select 1".data none).2.2 = .ok (.okPacket 1 1 1) ∧
    (Single.execute flakySDriver ⟨some 0, "h", "d", "u", "pw", 1⟩ "row"
        "select 1".data none).1.m_connection = some 1 ∧
    dispatchCount (Single.execute flakySDriver ⟨some 0, "h", "d", "u", "pw", 1⟩
        "row" "select 1".data none).2.1 = 2 := by
  have h := single_execute_reconnect_retry_once flakySDriver
    ⟨some 0, "h", "d", "u", "pw", 1⟩ 0 "row" "select 1".data none []
    "select 1".data 1045 rfl rfl rfl
  have hf := h.2.2.2.2.2 rfl
  obtain ⟨hok1, hok2⟩ := hf.2.2.1 (.okPacket 1 1 1) rfl
  exact ⟨hok1, hok2, hf.2.1⟩

/-- C9: a `field` call whose successful execution yields zero rows, or a first
row with zero columns, returns the caller-supplied default unchanged;
otherwise it returns the first column's value of the first row (both
variants). -/
theorem field_default_fallback
    (d : PDriver) (d2 : SDriver) (p c n : Nat)
    (host db user pw sh sdb su spw : String) (aSql : List Char)
    (ps : Option (List (List Char × JsValue))) (values : List JsValue)
    (out : List Char) (rs : List Row) (dflt : JsValue)
    (hrw : prepareStatement aSql ps = .ok (values, out))
    (hp : d.poolExecute out values = .ok (.rowSet rs))
    (hs : d2.connExecute c out values = .ok (.rowSet rs)) :
    (Pooled.field d ⟨none, some p, host, db, user, pw⟩ aSql ps dflt).2 =
      .ok (match rs with
        | [] => dflt
        | [] :: _ => dflt
        | ((_, v) :: _) :: _ => v) ∧
    (Single.field d2 ⟨some c, sh, sdb, su, spw, n⟩ aSql ps dflt).2.2 =
      .ok (match rs with
        | [] => dflt
        | [] :: _ => dflt
        | ((_, v) :: _) :: _ => v) := by
  constructor
  · rcases rs with _ | ⟨r, rest⟩
    · simp [Pooled.field, Pooled.execute, hrw, hp]
    · rcases r with _ | ⟨⟨k, v⟩, tl⟩
      · simp [Pooled.field, Pooled.execute, hrw, hp]
      · simp [Pooled.field, Pooled.execute, hrw, hp, List.lookup]
  · rcases rs with _ | ⟨r, rest⟩
    · simp [Single.field, Single.execute, hrw, hs]
    · rcases r with _ | ⟨⟨k, v⟩, tl⟩
      · simp [Single.field, Single.execute, hrw, hs]
      · simp [Single.field, Single.execute, hrw, hs, List.lookup]

/-- Witness for C9: a one-row, one-column result yields that column's value;
the drivers dispatch the parameterless statement directly. -/
theorem field_default_fallback_witness :
    (Pooled.field rowsPDriver ⟨none, some 3, "h", "d", "u", "pw"⟩
        "select name from t".data none .vNull).2 = .ok (.vStr "x") ∧
    (Single.field rowsSDriver ⟨some 5, "h", "d", "u", "pw", 6⟩
        "select name from t".data none .vNull).2.2 = .ok (.vStr "x") :=
  field_default_fallback rowsPDriver rowsSDriver 3 5 6 "h" "d" "u" "pw"
    "h" "d" "u" "pw" "select name from t".data none [] "select name from t".data
    [[("name", .vStr "x")]] .vNull rfl rfl rfl

/-- `Pooled.init` never assigns the connection field. -/
theorem pooled_init_connection (d : PDriver) (s : PState) (h db u p : String) :
    (Pooled.init d s h db u p).1.m_connection = s.m_connection := by
  unfold Pooled.init
  rcases hcp : d.createPool with e | pp <;> simp [hcp]

/-- A successful single-connection `init` binds a connection, and `init` never
clears an already-bound one (on failure the assignment never runs). -/
theorem single_init_connection (d : SDriver) (t : SState) (h db u p : String) :
    ((Single.init d t h db u p).2.2 = .ok () →
      (Single.init d t h db u p).1.m_connection.isSome) ∧
    (t.m_connection.isSome → (Single.init d t h db u p).1.m_connection.isSome) := by
  unfold Single.init
  rcases hcr : d.createConnection t.nextConn with e | u <;> simp [hcr]

/-- `reconnect` never clears the bound connection: on success it binds the
fresh one; on failure the old value is kept. -/
theorem reconnect_keeps_connection (d : SDriver) (t : SState)
    (h : t.m_connection.isSome) :
    (Single.reconnect d t).1.m_connection.isSome := by
  unfold Single.reconnect
  rcases hcr : d.createConnection t.nextConn with e | u <;> simp [hcr, h]

/-- The single-connection `execute` leaves a connection bound whenever one was
bound before the call (the reconnect path rebinds or keeps one). -/
theorem single_execute_keeps_connection (d : SDriver) (t : SState)
    (desc : String) (aSql : List Char)
    (ps : Option (List (List Char × JsValue)))
    (h : t.m_connection.isSome) :
    (Single.execute d t desc aSql ps).1.m_connection.isSome := by
  unfold Single.execute
  rcases hc : t.m_connection with _ | c
  · rw [hc] at h; simp at h
  · rcases hrw : prepareStatement aSql ps with nm | ⟨values, out⟩
    · simp [hrw, hc]
    · rcases h1 : d.connExecute c out values with e1 | r
      · have hrec := reconnect_keeps_connection d t h
        rcases hrc : Single.reconnect d t with ⟨s2, ev2, rres⟩
        rw [hrc] at hrec
        simp at hrec
        rcases rres with e | u
        · simp [hc, hrw, h1, hrc, hrec]
        · rcases hs2 : s2.m_connection with _ | c2
          · rw [hs2] at hrec; simp at hrec
          · rcases h2 : d.connExecute c2 out values with e3 | r2 <;>
              simp [hc, hrw, h1, hrc, hs2, h2]
      · simp [hc, hrw, h1]

/-- C8: state invariants of adapter instances.  A transaction-scoped pooled
instance holds a dedicated connection and never a pool reference; a
caller-created pooled instance never holds a dedicated connection, a
successful `init` gives it a pool, and a repeated `init` keeps one — so after
`init` it holds exactly one of pool or connection (the pool); a
single-connection instance holds its one connection in every state reachable
from a successful `init`. -/
theorem adapter_instance_state_invariants :
    (∀ s, ScopedReach s → s.m_connection.isSome ∧ s.m_pool = none) ∧
    (∀ s, PClientReach s → s.m_connection = none) ∧
    (∀ (d : PDriver) (s : PState) (h db u p : String),
      (Pooled.init d s h db u p).2.2 = .ok () →
      (Pooled.init d s h db u p).1.m_pool.isSome) ∧
    (∀ (d : PDriver) (s : PState) (h db u p : String), s.m_pool.isSome →
      (Pooled.init d s h db u p).1.m_pool.isSome) ∧
    (∀ t, SInitedReach t → t.m_connection.isSome) := by
  refine ⟨?_, ?_, ?_, ?_, ?_⟩
  · intro s hr
    induction hr with
    | create conn => simp [Pooled.useConnection]
    | txStep d cb hr ih => rw [transaction_self_eq]; exact ih
  · intro s hr
    induction hr with
    | construct => rfl
    | initStep d h db u p hr ih => rw [pooled_init_connection]; exact ih
    | txStep d cb hr ih => rw [transaction_self_eq]; exact ih
  · intro d s h db u p hok
    unfold Pooled.init at hok ⊢
    rcases hcp : d.createPool with e | pp
    · rw [hcp] at hok; simp at hok
    · simp [hcp]
  · intro d s h db u p hpool
    unfold Pooled.init
    rcases hcp : d.createPool with e | pp <;> simp [hcp, hpool]
  · intro t hr
    induction hr with
    | initOk d t h db u p hok => exact (single_init_connection d t h db u p).1 hok
    | initStep d h db u p hr ih => exact (single_init_connection d _ h db u p).2 ih
    | execStep d desc sql ps hr ih => exact single_execute_keeps_connection d _ desc sql ps ih
    | reconnectStep d hr ih => exact reconnect_keeps_connection d _ ih

/-- Witness for C8: a concrete scoped instance, a fresh client instance and
successful `init` calls of both variants. -/
theorem adapter_instance_state_invariants_witness :
    ((Pooled.useConnection {} 7).m_connection.isSome ∧
      (Pooled.useConnection {} 7).m_pool = none) ∧
    (({} : PState).m_connection = none) ∧
    (Pooled.init okPDriver {} "h" "d" "u" "pw").1.m_pool.isSome ∧
    (Single.init okSDriver {} "h" "d" "u" "pw").1.m_connection.isSome := by
  have h := adapter_instance_state_invariants
  exact ⟨h.1 _ (ScopedReach.create 7), h.2.1 _ PClientReach.construct,
    h.2.2.1 okPDriver {} "h" "d" "u" "pw" rfl,
    h.2.2.2.2 _ (SInitedReach.initOk okSDriver {} "h" "d" "u" "pw" rfl)⟩

end UFMysql
